import Mathlib

/-!
Verification of the checkmate-cli task client (src/checkmate.py).

The development shallowly embeds the task-resolution and mutation logic of
`CheckmateClient` and the `cmd_list` renderer.  Python strings are Lean
`String`s (Python slices and `len` count code points, as does `String.data`);
Python ints are Lean `Int`; JSON task records are the `Task` structure below;
functions that `raise Exception(msg)` are embedded as `Except String`
computations carrying the exception message.  `datetime.now()` is passed in
as an explicit clock argument.
-/

namespace Checkmate

/-- A task record as fetched from / sent to the service
(JSON shape `guid, title, notes, completed, createTime, completeTime,
sortPosition`). -/
structure Task where
  guid : String
  title : String
  notes : String
  completed : Bool
  createTime : String
  completeTime : String
  sortPosition : Int
deriving Repr, DecidableEq

/-- The ASCII whitespace characters stripped by Python `int(str)`. -/
def pyIsSpace (c : Char) : Bool :=
  c = ' ' || c = '\t' || c = '\n' || c = '\r' || c = '\x0b' || c = '\x0c'

/-- Digit run of a Python integer literal, after its first digit: digits
optionally separated by single underscores.  `acc` is the value of the
digits already consumed. -/
def pyDigitsAux : List Char → Nat → Option Nat
  | [], acc => some acc
  | '_' :: c :: rest, acc =>
      if c.isDigit then pyDigitsAux rest (acc * 10 + (c.toNat - 48)) else none
  | ['_'], _ => none
  | c :: rest, acc =>
      if c.isDigit then pyDigitsAux rest (acc * 10 + (c.toNat - 48)) else none

/-- Value of a nonempty digit run (first character must be a digit). -/
def pyDigits : List Char → Option Nat
  | [] => none
  | c :: rest => if c.isDigit then pyDigitsAux rest (c.toNat - 48) else none

/-- Strip leading and trailing whitespace, as Python `int(str)` does. -/
def pyStrip (cs : List Char) : List Char :=
  ((cs.dropWhile pyIsSpace).reverse.dropWhile pyIsSpace).reverse

/-- Python `int(s)` for base-10 strings: optional surrounding whitespace,
optional sign, nonempty digit run with optional single underscores between
digits.  `none` models the `ValueError` raised on any other input. -/
def parsePyInt (s : String) : Option Int :=
  match pyStrip s.data with
  | '+' :: rest => (pyDigits rest).map (fun n => (n : Int))
  | '-' :: rest => (pyDigits rest).map (fun n => -(n : Int))
  | cs => (pyDigits cs).map (fun n => (n : Int))

/-- Python slice `s[:n]`: the first `n` code points of `s`. -/
def pyTake (s : String) (n : Nat) : String :=
  ⟨s.data.take n⟩

/-- Python `s.lower()`, lowering each character (ASCII case mapping, which
is all the service's GUIDs use). -/
def pyLower (s : String) : String :=
  ⟨s.data.map Char.toLower⟩

/-- Python `s.startswith(p)`: `p` is a prefix of `s`. -/
def pyStartswith (s p : String) : Bool :=
  List.isPrefixOf p.data s.data

/-- The key order of `sorted(all_tasks, key=lambda t: t.get('sortPosition', 0),
reverse=True)`: descending `sortPosition`. -/
def taskDescending (a b : Task) : Prop :=
  b.sortPosition ≤ a.sortPosition

instance : DecidableRel taskDescending :=
  fun a b => inferInstanceAs (Decidable (b.sortPosition ≤ a.sortPosition))

instance : IsTotal Task taskDescending :=
  ⟨fun a b => le_total b.sortPosition a.sortPosition⟩

instance : IsTrans Task taskDescending :=
  ⟨fun _ _ _ h1 h2 => le_trans h2 h1⟩

/-- The working copy `sorted(all_tasks, key=..., reverse=True)`.  Python's
`sorted` is a stable sort; insertion sort is stable, so it realises the same
function. -/
def sortTasks (all_tasks : List Task) : List Task :=
  List.insertionSort taskDescending all_tasks

/-- The message of `f"Task number {position} is out of range (1-{len(tasks)})"`. -/
def outOfRangeMsg (position : Int) (bound : Nat) : String :=
  "Task number " ++ toString position ++ " is out of range (1-" ++ toString bound ++ ")"

/-- The message of `f"No task found matching '{task_id}'"`. -/
def noTaskFoundMsg (task_id : String) : String :=
  "No task found matching '" ++ task_id ++ "'"

/-- The message of `f"Ambiguous GUID prefix '{task_id}' matches multiple
tasks: {matching_guids}"`, where `matching_guids` joins the first 8
characters of each matching GUID with `', '`. -/
def ambiguousMsg (task_id : String) (ms : List Task) : String :=
  "Ambiguous GUID prefix '" ++ task_id ++ "' matches multiple tasks: " ++
    String.intercalate ", " (ms.map (fun t => pyTake t.guid 8))

/-- `CheckmateClient.find_task_by_id` (src/checkmate.py lines 77-107), with
the fetched task set passed in place of the `get_tasks()` network call.
The unreachable branch where the bounds-checked index still misses is the
`IndexError` Python would raise there. -/
def findTaskById (all_tasks : List Task) (task_id : String) : Except String Task :=
  let tasks := sortTasks all_tasks
  match parsePyInt task_id with
  | some position =>
      if position < 1 ∨ position > (tasks.length : Int) then
        Except.error (outOfRangeMsg position tasks.length)
      else
        match tasks[(position - 1).toNat]? with
        | some t => Except.ok t
        | none => Except.error "IndexError"
  | none =>
      let guid_lower := pyLower task_id
      match all_tasks.find? (fun t => pyLower t.guid == guid_lower) with
      | some t => Except.ok t
      | none =>
          match all_tasks.filter (fun t => pyStartswith (pyLower t.guid) guid_lower) with
          | [] => Except.error (noTaskFoundMsg task_id)
          | [t] => Except.ok t
          | ms => Except.error (ambiguousMsg task_id ms)

/-- `datetime.now().strftime('%B %d, %Y %H:%M:%S')`: the six field values
interpolated around the format's literal separators. -/
def strftimeDisplay (B d Y H M S : String) : String :=
  B ++ " " ++ d ++ ", " ++ Y ++ " " ++ H ++ ":" ++ M ++ ":" ++ S

/-- `CheckmateClient.create_task` (lines 109-120): the task object sent to
`update_tasks`.  `now` is the formatted current timestamp. -/
def create_task (title : String) (notes : String) (now : String) : Task :=
  { guid := "new"
    title := pyTake title 200
    notes := pyTake notes 1000
    completed := false
    createTime := now
    completeTime := ""
    sortPosition := 0 }

/-- The record mutation done by `complete_task` (lines 126-130) on the
resolved task. -/
def applyComplete (task : Task) (completed : Bool) (now : String) : Task :=
  { task with
    completed := completed
    completeTime := if completed then now else "" }

/-- `CheckmateClient.complete_task` (lines 122-132): resolve, mutate, and
return the single task object sent to `update_tasks`; an error is a raised
exception (no update call happens). -/
def complete_task (all_tasks : List Task) (task_id : String) (completed : Bool)
    (now : String) : Except String Task :=
  (findTaskById all_tasks task_id).map (fun task => applyComplete task completed now)

/-- `CheckmateClient.delete_task` (lines 134-139). -/
def delete_task (all_tasks : List Task) (task_id : String) : Except String Task :=
  (findTaskById all_tasks task_id).map (fun task => { task with sortPosition := -1 })

/-- `CheckmateClient.update_task` (lines 141-150): `none` models an
unsupplied (`None`) argument. -/
def update_task (all_tasks : List Task) (task_id : String)
    (title : Option String) (notes : Option String) : Except String Task :=
  (findTaskById all_tasks task_id).map (fun task =>
    let task1 := match title with
      | some t => { task with title := pyTake t 200 }
      | none => task
    let task2 := match notes with
      | some n => { task1 with notes := pyTake n 1000 }
      | none => task1
    task2)

/-- The `position = 1; for task in tasks: ... position += 1` display loop of
`cmd_list` (lines 219-222): each task paired with its printed position. -/
def numberFrom : Nat → List Task → List (Nat × Task)
  | _, [] => []
  | p, t :: ts => (p, t) :: numberFrom (p + 1) ts

/-- What `cmd_list` prints: the numbered rows and the two totals of the
final `Total: ... incomplete, ... completed` line. -/
structure ListOutput where
  rows : List (Nat × Task)
  incompleteCount : Nat
  completedCount : Nat
deriving Repr, DecidableEq

/-- `cmd_list` (src/checkmate.py lines 199-224) with the fetched task set
passed in place of `get_tasks()`.  `none` is the early `"No tasks found."`
return on an empty fetch. -/
def cmd_list (all_tasks : List Task) (hide_completed : Bool) : Option ListOutput :=
  if all_tasks.isEmpty then none
  else
    let tasks := sortTasks all_tasks
    let tasks := if hide_completed then tasks.filter (fun t => !t.completed) else tasks
    some
      { rows := numberFrom 1 tasks
        incompleteCount := all_tasks.countP (fun t => !t.completed)
        completedCount := all_tasks.countP (fun t => t.completed) }

/-- A Python value decoded by `json.loads`.  JSON numbers are taken as
integers here (the service error bodies carry no floats); that only affects
the `pyTypeName`/`pyRepr` rendering of numeric fields. -/
inductive PyJson where
  | obj (fields : List (String × PyJson))
  | arr (elems : List PyJson)
  | str (s : String)
  | num (n : Int)
  | bool (b : Bool)
  | null

mutual

/-- Python `repr()` of a decoded JSON value (dict/list rendering with
single-quoted strings; quote escaping inside strings is not reproduced). -/
def pyRepr : PyJson → String
  | .obj fields => "\x7b" ++ pyReprFields fields ++ "\x7d"
  | .arr elems => "[" ++ pyReprElems elems ++ "]"
  | .str s => "'" ++ s ++ "'"
  | .num n => toString n
  | .bool b => if b then "True" else "False"
  | .null => "None"

/-- `repr()` of a dict's comma-separated `'key': value` items. -/
def pyReprFields : List (String × PyJson) → String
  | [] => ""
  | [(k, v)] => "'" ++ k ++ "': " ++ pyRepr v
  | (k, v) :: rest => "'" ++ k ++ "': " ++ pyRepr v ++ ", " ++ pyReprFields rest

/-- `repr()` of a list's comma-separated elements. -/
def pyReprElems : List PyJson → String
  | [] => ""
  | [v] => pyRepr v
  | v :: rest => pyRepr v ++ ", " ++ pyReprElems rest

end

/-- Python `str()` of a decoded JSON value: a string is itself, anything
else renders as its `repr()`. -/
def pyStr : PyJson → String
  | .str s => s
  | v => pyRepr v

/-- The Python type name of a decoded JSON value, as it appears in an
`AttributeError` message. -/
def pyTypeName : PyJson → String
  | .obj _ => "dict"
  | .arr _ => "list"
  | .str _ => "str"
  | .num _ => "int"
  | .bool _ => "bool"
  | .null => "NoneType"

/-- `dict.get(key)` on a decoded JSON object: `json.loads` keeps only the
last of any duplicate keys, so lookup of the first matching key in its
field list. -/
def jsonObjGet (fields : List (String × PyJson)) (key : String) : Option PyJson :=
  (fields.find? (fun p => p.1 == key)).map (fun p => p.2)

/-- Outcome of the `urllib.request.urlopen` call in `_make_request`, for
the failing cases: a non-2xx response (`HTTPError`) with status `code` and
decoded body text `body`, or a transport failure (`URLError`) carrying
`reason`.  `parsed` is the result of `json.loads(body)`: `none` models
`json.JSONDecodeError`, `some j` a successful decode to the value `j`. -/
inductive HttpOutcome where
  | httpError (code : Nat) (body : String) (parsed : Option PyJson)
  | urlError (reason : String)

/-- The exception message raised by `_make_request` (src/checkmate.py lines
49-60) on a failed request.  For a non-2xx response the body is decoded and
`error_json.get('error', error_msg)` becomes the message (via Python
`str()`); `.get` on a decoded non-dict raises `AttributeError`, whose
message that branch reproduces; an undecodable body gives the generic
`HTTP <code>: <body>` message.  A transport failure gives the
connection-error message. -/
def handleRequestFailure : HttpOutcome → String
  | .httpError code body parsed =>
      match parsed with
      | some (.obj fields) =>
          match jsonObjGet fields "error" with
          | some v => pyStr v
          | none => body
      | some j => "'" ++ pyTypeName j ++ "' object has no attribute 'get'"
      | none => "HTTP " ++ toString code ++ ": " ++ body
  | .urlError reason => "Connection error: " ++ reason

/-! ### Concrete sample data (used to instantiate the theorems) -/

/-- A sample incomplete task. -/
def sampleA : Task := ⟨"abc12345", "alpha", "", false, "", "", 5⟩

/-- A sample completed task with a higher `sortPosition` than `sampleA`. -/
def sampleB : Task := ⟨"def45678", "beta", "", true, "", "", 10⟩

/-- A sample task whose GUID shares the prefix `abc` with `sampleD`. -/
def sampleC : Task := ⟨"abc1", "c-one", "", false, "", "", 0⟩

/-- A sample task whose GUID shares the prefix `abc` with `sampleC`. -/
def sampleD : Task := ⟨"abcd2", "c-two", "", false, "", "", 0⟩

/-! ### Helper lemmas -/

/-- Sorting does not change the number of tasks. -/
theorem length_sortTasks (l : List Task) : (sortTasks l).length = l.length :=
  List.length_insertionSort taskDescending l

/-- The working copy is a permutation of the fetched set. -/
theorem sortTasks_perm (l : List Task) : (sortTasks l).Perm l :=
  List.perm_insertionSort taskDescending l

/-- The working copy is ordered by descending `sortPosition`. -/
theorem sortTasks_pairwise (l : List Task) : (sortTasks l).Pairwise taskDescending :=
  List.sorted_insertionSort taskDescending l

/-- The display loop pairs each task with a position and changes nothing else. -/
theorem numberFrom_map_snd (p : Nat) (l : List Task) :
    (numberFrom p l).map Prod.snd = l := by
  induction l generalizing p with
  | nil => rfl
  | cons t ts ih => simp [numberFrom, ih]

/-- The display loop prints consecutive positions starting at `p`. -/
theorem numberFrom_map_fst (p : Nat) (l : List Task) :
    (numberFrom p l).map Prod.fst = List.range' p l.length := by
  induction l generalizing p with
  | nil => rfl
  | cons t ts ih => simp [numberFrom, List.range'_succ, ih]

theorem numberFrom_length (p : Nat) (l : List Task) :
    (numberFrom p l).length = l.length := by
  induction l generalizing p with
  | nil => rfl
  | cons t ts ih => simp [numberFrom, ih]

/-- Row `i` of the display loop holds position `p + i` and task `i`. -/
theorem numberFrom_getElem? (p : Nat) (l : List Task) (i : Nat) :
    (numberFrom p l)[i]? = l[i]?.map (fun t => (p + i, t)) := by
  induction l generalizing p i with
  | nil => simp [numberFrom]
  | cons t ts ih =>
      cases i with
      | zero => simp [numberFrom]
      | succ j =>
          simp only [numberFrom, List.getElem?_cons_succ, ih (p + 1) j]
          have h : p + 1 + j = p + (j + 1) := by omega
          rw [h]

/-- `find?` of an exact lowered-GUID match returns `t` itself whenever the
lowered GUIDs are pairwise distinct and `t`'s lowered GUID is searched. -/
theorem find?_pyLower_guid (all_tasks : List Task) (t : Task) (g : String)
    (hdist : all_tasks.Pairwise (fun a b => pyLower a.guid ≠ pyLower b.guid))
    (hmem : t ∈ all_tasks) (hg : g = pyLower t.guid) :
    all_tasks.find? (fun u => pyLower u.guid == g) = some t := by
  induction all_tasks with
  | nil => cases hmem
  | cons a l ih =>
      rcases List.mem_cons.mp hmem with rfl | hmem'
      · exact List.find?_cons_of_pos _ (by simp [hg])
      · have hpair := List.pairwise_cons.mp hdist
        have hne : pyLower a.guid ≠ pyLower t.guid := hpair.1 t hmem'
        rw [List.find?_cons_of_neg _ (by simp [hg, hne])]
        exact ih hpair.2 hmem'

/-- The display timestamp format always renders a non-empty string (its
literal separators alone have positive length). -/
theorem strftimeDisplay_ne_empty (B d Y H M S : String) :
    strftimeDisplay B d Y H M S ≠ "" := by
  intro h
  have hlen := congrArg String.length h
  have h1 : (" " : String).length = 1 := rfl
  have h2 : (", " : String).length = 2 := rfl
  have h3 : (":" : String).length = 1 := rfl
  have h0 : ("" : String).length = 0 := rfl
  simp only [strftimeDisplay, String.length_append, h1, h2, h3, h0] at hlen
  omega

/-! ### Claim theorems -/

/-- C2: for a fetched task set of size `N` and a numeric identifier `n`
with `n < 1` or `n > N`, `find_task_by_id` raises the out-of-range error
naming the valid bound `N`, and every mutating command returns that same
error without producing a payload for `update_tasks` (no mutation call is
made). -/
theorem out_of_range_no_mutation (all_tasks : List Task) (task_id : String) (n : Int)
    (hp : parsePyInt task_id = some n)
    (hout : n < 1 ∨ n > (all_tasks.length : Int)) :
    findTaskById all_tasks task_id = Except.error (outOfRangeMsg n all_tasks.length) ∧
    (∀ c now, complete_task all_tasks task_id c now =
        Except.error (outOfRangeMsg n all_tasks.length)) ∧
    delete_task all_tasks task_id = Except.error (outOfRangeMsg n all_tasks.length) ∧
    (∀ ti no, update_task all_tasks task_id ti no =
        Except.error (outOfRangeMsg n all_tasks.length)) := by
  have hfind : findTaskById all_tasks task_id =
      Except.error (outOfRangeMsg n all_tasks.length) := by
    simp only [findTaskById, hp]
    rw [length_sortTasks]
    rw [if_pos hout]
  exact ⟨hfind, fun c now => by simp [complete_task, hfind, Except.map],
    by simp [delete_task, hfind, Except.map],
    fun ti no => by simp [update_task, hfind, Except.map]⟩

/-- Witness for C2 at the spec's own scenario: two tasks, identifier `3`. -/
theorem out_of_range_no_mutation_witness :
    findTaskById [sampleA, sampleB] "3" = Except.error (outOfRangeMsg 3 2) ∧
    delete_task [sampleA, sampleB] "3" = Except.error (outOfRangeMsg 3 2) :=
  ⟨(out_of_range_no_mutation [sampleA, sampleB] "3" 3 rfl (by decide)).1,
   (out_of_range_no_mutation [sampleA, sampleB] "3" 3 rfl (by decide)).2.2.1⟩

/-- C10: on an empty fetched task set every identifier fails: a numeric one
with the out-of-range error whose stated valid range is `1-0`, a
non-numeric one with the no-task-found error. -/
theorem empty_fetch_resolution_fails (task_id : String) :
    (∀ n : Int, parsePyInt task_id = some n →
        findTaskById [] task_id = Except.error (outOfRangeMsg n 0)) ∧
    (parsePyInt task_id = none →
        findTaskById [] task_id = Except.error (noTaskFoundMsg task_id)) := by
  constructor
  · intro n hp
    simp only [findTaskById, hp]
    rw [if_pos]
    · rfl
    · have h0 : (sortTasks ([] : List Task)).length = 0 := rfl
      rw [h0]
      omega
  · intro hp
    simp [findTaskById, hp]

/-- Witness for C10: both branches on the empty set. -/
theorem empty_fetch_resolution_fails_witness :
    findTaskById [] "5" = Except.error (outOfRangeMsg 5 0) ∧
    findTaskById [] "zz" = Except.error (noTaskFoundMsg "zz") :=
  ⟨(empty_fetch_resolution_fails "5").1 5 rfl,
   (empty_fetch_resolution_fails "zz").2 rfl⟩

/-- C7: on a resolved target `t`, `delete_task` sends `t` with only
`sortPosition` changed (to `-1`); `update_task` with only a title leaves
`notes` (and every other field but `title`) unchanged, and with only notes
leaves `title` unchanged — the `\x7b t with ... \x7d` records keep every
unmentioned field of `t`. -/
theorem mutation_frame (all_tasks : List Task) (task_id : String) (t : Task)
    (ti no : String) (h : findTaskById all_tasks task_id = Except.ok t) :
    delete_task all_tasks task_id = Except.ok { t with sortPosition := -1 } ∧
    update_task all_tasks task_id (some ti) none =
      Except.ok { t with title := pyTake ti 200 } ∧
    update_task all_tasks task_id none (some no) =
      Except.ok { t with notes := pyTake no 1000 } := by
  refine ⟨?_, ?_, ?_⟩ <;> simp [delete_task, update_task, h, Except.map]

/-- Witness for C7 at a one-task set resolved by position `1`. -/
theorem mutation_frame_witness :
    delete_task [sampleA] "1" = Except.ok { sampleA with sortPosition := -1 } ∧
    update_task [sampleA] "1" (some "T") none =
      Except.ok { sampleA with title := pyTake "T" 200 } :=
  ⟨(mutation_frame [sampleA] "1" sampleA "T" "N" rfl).1,
   (mutation_frame [sampleA] "1" sampleA "T" "N" rfl).2.1⟩

/-- C3: for a non-numeric identifier with no case-insensitive exact GUID
match, prefix matching over the unsorted fetched set decides the outcome:
exactly one match is returned, zero matches raise the no-task-found error,
and two or more raise the ambiguous-prefix error listing the first 8
characters of every colliding GUID (`ambiguousMsg` joins
`pyTake guid 8` over all matches). -/
theorem guid_resolution_match_cases (all_tasks : List Task) (task_id : String)
    (hp : parsePyInt task_id = none)
    (hexact : all_tasks.find? (fun t => pyLower t.guid == pyLower task_id) = none) :
    (all_tasks.filter (fun t => pyStartswith (pyLower t.guid) (pyLower task_id)) = [] →
        findTaskById all_tasks task_id = Except.error (noTaskFoundMsg task_id)) ∧
    (∀ t, all_tasks.filter (fun t => pyStartswith (pyLower t.guid) (pyLower task_id)) = [t] →
        findTaskById all_tasks task_id = Except.ok t) ∧
    (∀ t1 t2 rest,
        all_tasks.filter (fun t => pyStartswith (pyLower t.guid) (pyLower task_id)) =
          t1 :: t2 :: rest →
        findTaskById all_tasks task_id =
          Except.error (ambiguousMsg task_id (t1 :: t2 :: rest))) := by
  refine ⟨fun hf => ?_, fun t hf => ?_, fun t1 t2 rest hf => ?_⟩ <;>
    simp only [findTaskById, hp, hexact, hf]

/-- Witness for C3: an ambiguous two-match prefix and a unique one-match
prefix on concrete task sets. -/
theorem guid_resolution_match_cases_witness :
    findTaskById [sampleC, sampleD] "abc" =
      Except.error (ambiguousMsg "abc" [sampleC, sampleD]) ∧
    findTaskById [sampleC] "abc" = Except.ok sampleC :=
  ⟨(guid_resolution_match_cases [sampleC, sampleD] "abc" rfl rfl).2.2
      sampleC sampleD [] rfl,
   (guid_resolution_match_cases [sampleC] "abc" rfl rfl).2.1 sampleC rfl⟩

/-- C4: on a fetched set whose GUIDs are pairwise distinct
case-insensitively, any non-numeric case variation of a task's GUID
resolves to that task through the exact match against the unsorted set. -/
theorem guid_exact_match_any_case (all_tasks : List Task) (t : Task) (task_id : String)
    (hdist : all_tasks.Pairwise (fun a b => pyLower a.guid ≠ pyLower b.guid))
    (hmem : t ∈ all_tasks)
    (hid : pyLower task_id = pyLower t.guid)
    (hp : parsePyInt task_id = none) :
    findTaskById all_tasks task_id = Except.ok t := by
  simp only [findTaskById, hp]
  rw [find?_pyLower_guid all_tasks t (pyLower task_id) hdist hmem hid]

/-- Witness for C4: the upper-cased GUID of `sampleA` still resolves to
`sampleA`. -/
theorem guid_exact_match_any_case_witness :
    findTaskById [sampleA, sampleB] "ABC12345" = Except.ok sampleA :=
  guid_exact_match_any_case [sampleA, sampleB] sampleA "ABC12345"
    (by decide) (by decide) (by decide) (by decide)

/-- C5: titles and notes sent by `create_task` and `update_task` are capped
at 200/1000 characters by the `[:n]` slice, the slice never exceeds the
cap, strings within the cap pass through unchanged, and truncation is
idempotent. -/
theorem truncation_cap :
    (∀ title notes now, (create_task title notes now).title = pyTake title 200 ∧
        (create_task title notes now).notes = pyTake notes 1000) ∧
    (∀ all_tasks task_id ti no sent,
        update_task all_tasks task_id (some ti) (some no) = Except.ok sent →
        sent.title = pyTake ti 200 ∧ sent.notes = pyTake no 1000) ∧
    (∀ (s : String) (k : Nat), (pyTake s k).length ≤ k) ∧
    (∀ s : String, s.length ≤ 200 → pyTake s 200 = s) ∧
    (∀ s : String, s.length ≤ 1000 → pyTake s 1000 = s) ∧
    (∀ (s : String) (k : Nat), pyTake (pyTake s k) k = pyTake s k) := by
  refine ⟨fun title notes now => ⟨rfl, rfl⟩, ?_, ?_, ?_, ?_, ?_⟩
  · intro all_tasks task_id ti no sent h
    cases hfind : findTaskById all_tasks task_id with
    | error e => simp [update_task, hfind, Except.map] at h
    | ok u =>
        simp only [update_task, hfind, Except.map, Except.ok.injEq] at h
        subst h
        exact ⟨rfl, rfl⟩
  · intro s k
    simp only [pyTake, String.length, List.length_take]
    omega
  · intro s hs
    simp only [pyTake]
    rw [List.take_of_length_le hs]
  · intro s hs
    simp only [pyTake]
    rw [List.take_of_length_le hs]
  · intro s k
    simp [pyTake, List.take_take]

/-- Witness for C5: a concrete `update_task` payload and an in-cap
pass-through. -/
theorem truncation_cap_witness :
    Task.title { sampleA with title := pyTake "T" 200, notes := pyTake "N" 1000 } =
      pyTake "T" 200 ∧
    pyTake "ab" 200 = "ab" :=
  ⟨(truncation_cap.2.1 [sampleA] "1" "T" "N"
      { sampleA with title := pyTake "T" 200, notes := pyTake "N" 1000 } rfl).1,
   truncation_cap.2.2.2.1 "ab" (by decide)⟩

/-- C6: `complete` marks the persisted record completed with the non-empty
formatted timestamp, `uncomplete` marks it incomplete with an empty
`completeTime`, and composing the two record mutations ends with
`completed = false` and `completeTime = ""` whatever the intermediate
timestamp was. -/
theorem complete_uncomplete_roundtrip :
    (∀ all_tasks task_id B d Y H M S sent,
        complete_task all_tasks task_id true (strftimeDisplay B d Y H M S) =
          Except.ok sent →
        sent.completed = true ∧ sent.completeTime ≠ "") ∧
    (∀ all_tasks task_id now sent,
        complete_task all_tasks task_id false now = Except.ok sent →
        sent.completed = false ∧ sent.completeTime = "") ∧
    (∀ (t : Task) (now now2 : String),
        (applyComplete (applyComplete t true now) false now2).completed = false ∧
        (applyComplete (applyComplete t true now) false now2).completeTime = "") := by
  refine ⟨?_, ?_, fun t now now2 => ⟨rfl, rfl⟩⟩
  · intro all_tasks task_id B d Y H M S sent h
    cases hfind : findTaskById all_tasks task_id with
    | error e => simp [complete_task, hfind, Except.map] at h
    | ok u =>
        simp only [complete_task, hfind, Except.map, Except.ok.injEq] at h
        subst h
        exact ⟨rfl, strftimeDisplay_ne_empty B d Y H M S⟩
  · intro all_tasks task_id now sent h
    cases hfind : findTaskById all_tasks task_id with
    | error e => simp [complete_task, hfind, Except.map] at h
    | ok u =>
        simp only [complete_task, hfind, Except.map, Except.ok.injEq] at h
        subst h
        exact ⟨rfl, rfl⟩

/-- Witness for C6: completing then uncompleting `sampleA`. -/
theorem complete_uncomplete_roundtrip_witness :
    Task.completed (applyComplete sampleA true
      (strftimeDisplay "October" "12" "2026" "10" "30" "00")) = true ∧
    Task.completeTime (applyComplete sampleA false "unused") = "" :=
  ⟨(complete_uncomplete_roundtrip.1 [sampleA] "1" "October" "12" "2026" "10" "30" "00"
      (applyComplete sampleA true (strftimeDisplay "October" "12" "2026" "10" "30" "00"))
      rfl).1,
   (complete_uncomplete_roundtrip.2.1 [sampleA] "1" "unused"
      (applyComplete sampleA false "unused") rfl).2⟩

/-- C1: a numeric identifier `n` within `[1, N]` resolves to the task at
index `n-1` of the descending-sorted working copy — exactly the task that
`list` shows at display position `n`. -/
theorem position_resolution_matches_list (all_tasks : List Task) (task_id : String)
    (n : Int) (hp : parsePyInt task_id = some n) (h1 : 1 ≤ n)
    (h2 : n ≤ (all_tasks.length : Int)) :
    ∃ t out,
      (sortTasks all_tasks)[n.toNat - 1]? = some t ∧
      findTaskById all_tasks task_id = Except.ok t ∧
      cmd_list all_tasks false = some out ∧
      out.rows[n.toNat - 1]? = some (n.toNat, t) := by
  have hlen := length_sortTasks all_tasks
  have hlt : n.toNat - 1 < (sortTasks all_tasks).length := by omega
  refine ⟨(sortTasks all_tasks)[n.toNat - 1],
    { rows := numberFrom 1 (sortTasks all_tasks)
      incompleteCount := all_tasks.countP (fun t => !t.completed)
      completedCount := all_tasks.countP (fun t => t.completed) },
    List.getElem?_eq_getElem hlt, ?_, ?_, ?_⟩
  · simp only [findTaskById, hp]
    rw [if_neg (by rw [hlen]; omega)]
    rw [show (n - 1).toNat = n.toNat - 1 by omega, List.getElem?_eq_getElem hlt]
  · have hne : ¬ all_tasks.isEmpty = true := by
      simp only [List.isEmpty_iff]
      intro he
      rw [he] at h2
      simp only [List.length_nil, Nat.cast_zero] at h2
      omega
    simp only [cmd_list]
    rw [if_neg hne]
    rfl
  · show (numberFrom 1 (sortTasks all_tasks))[n.toNat - 1]? =
      some (n.toNat, (sortTasks all_tasks)[n.toNat - 1])
    rw [numberFrom_getElem?, List.getElem?_eq_getElem hlt]
    have hone : 1 + (n.toNat - 1) = n.toNat := by omega
    simp only [hone]
    rfl

/-- Witness for C1 at the spec's scenario: identifier `1` returns the
higher-`sortPosition` task `sampleB`. -/
theorem position_resolution_matches_list_witness :
    findTaskById [sampleA, sampleB] "1" = Except.ok sampleB := by
  obtain ⟨t, out, ht, hfind, -, -⟩ :=
    position_resolution_matches_list [sampleA, sampleB] "1" 1 rfl (by decide) (by decide)
  have hB : (sortTasks [sampleA, sampleB])[(1 : Int).toNat - 1]? = some sampleB := rfl
  rw [hB] at ht
  cases ht
  exact hfind

/-- C8: `list` on a non-empty fetch shows the descending-sorted tasks
(minus the completed ones when hiding), with display positions renumbered
sequentially from 1 regardless of `sortPosition` values, while both totals
count the unfiltered fetched set. -/
theorem cmd_list_spec (all_tasks : List Task) (hide_completed : Bool)
    (h : all_tasks ≠ []) :
    ∃ out, cmd_list all_tasks hide_completed = some out ∧
      out.rows.map Prod.snd =
        (if hide_completed then (sortTasks all_tasks).filter (fun t => !t.completed)
         else sortTasks all_tasks) ∧
      out.rows.map Prod.fst = List.range' 1 out.rows.length ∧
      (out.rows.map Prod.snd).Pairwise taskDescending ∧
      (sortTasks all_tasks).Perm all_tasks ∧
      (hide_completed = false → out.rows.length = all_tasks.length) ∧
      out.incompleteCount = all_tasks.countP (fun t => !t.completed) ∧
      out.completedCount = all_tasks.countP (fun t => t.completed) := by
  have hne : ¬ all_tasks.isEmpty = true := by
    simp only [List.isEmpty_iff]
    exact h
  cases hide_completed with
  | false =>
      refine ⟨{ rows := numberFrom 1 (sortTasks all_tasks)
                incompleteCount := all_tasks.countP (fun t => !t.completed)
                completedCount := all_tasks.countP (fun t => t.completed) },
        ?_, ?_, ?_, ?_, sortTasks_perm all_tasks, ?_, rfl, rfl⟩
      · simp only [cmd_list]
        rw [if_neg hne]
        rfl
      · simp [numberFrom_map_snd]
      · show (numberFrom 1 (sortTasks all_tasks)).map Prod.fst =
          List.range' 1 (numberFrom 1 (sortTasks all_tasks)).length
        rw [numberFrom_map_fst, numberFrom_length]
      · show ((numberFrom 1 (sortTasks all_tasks)).map Prod.snd).Pairwise taskDescending
        rw [numberFrom_map_snd]
        exact sortTasks_pairwise all_tasks
      · intro
        show (numberFrom 1 (sortTasks all_tasks)).length = all_tasks.length
        rw [numberFrom_length, length_sortTasks]
  | true =>
      refine ⟨{ rows := numberFrom 1 ((sortTasks all_tasks).filter (fun t => !t.completed))
                incompleteCount := all_tasks.countP (fun t => !t.completed)
                completedCount := all_tasks.countP (fun t => t.completed) },
        ?_, ?_, ?_, ?_, sortTasks_perm all_tasks, fun hc => Bool.noConfusion hc, rfl, rfl⟩
      · simp only [cmd_list]
        rw [if_neg hne]
        rfl
      · simp [numberFrom_map_snd]
      · show (numberFrom 1 ((sortTasks all_tasks).filter (fun t => !t.completed))).map
            Prod.fst =
          List.range' 1
            (numberFrom 1 ((sortTasks all_tasks).filter (fun t => !t.completed))).length
        rw [numberFrom_map_fst, numberFrom_length]
      · show ((numberFrom 1 ((sortTasks all_tasks).filter (fun t => !t.completed))).map
            Prod.snd).Pairwise taskDescending
        rw [numberFrom_map_snd]
        exact (sortTasks_pairwise all_tasks).filter _

/-- Witness for C8: the sorted working copy of a concrete two-task set is a
permutation of the fetched set (extracted from the instantiated theorem). -/
theorem cmd_list_spec_witness :
    (sortTasks [sampleA, sampleB]).Perm [sampleA, sampleB] := by
  obtain ⟨out, -, -, -, -, hperm, -, -, -⟩ :=
    cmd_list_spec [sampleA, sampleB] false (by decide)
  exact hperm

/-- C9 counterexample: a 500 response whose body decodes to the JSON object
with the single field `x` (so: valid JSON, but no `error` field).  The
raised message is the raw body — there is no error field whose value it
could be, and it is not the generic `HTTP 500: <body>` string either, so
the claim's description of every valid-JSON body is refuted at this
input. -/
theorem request_error_message_counterexample :
    handleRequestFailure (HttpOutcome.httpError 500 "\x7b\"x\": 1\x7d"
        (some (PyJson.obj [("x", PyJson.num 1)]))) = "\x7b\"x\": 1\x7d" ∧
    jsonObjGet [("x", PyJson.num 1)] "error" = none ∧
    ("\x7b\"x\": 1\x7d" : String) ≠ "HTTP 500: \x7b\"x\": 1\x7d" :=
  ⟨rfl, rfl, by decide⟩

/-- C9 (amended): for a non-2xx response whose body decodes to a JSON
object, the message is the object's `error` field when present (its string
value), and the raw body when absent; an undecodable body produces the
generic `HTTP <status>: <body>` message; every transport failure carries
the `Connection error: ` prefix; in each case the failure is one error
holding a human-readable string. -/
theorem request_failure_messages :
    (∀ (code : Nat) (body : String) (fields : List (String × PyJson)) (v : String),
        jsonObjGet fields "error" = some (PyJson.str v) →
        handleRequestFailure
          (HttpOutcome.httpError code body (some (PyJson.obj fields))) = v) ∧
    (∀ (code : Nat) (body : String) (fields : List (String × PyJson)),
        jsonObjGet fields "error" = none →
        handleRequestFailure
          (HttpOutcome.httpError code body (some (PyJson.obj fields))) = body) ∧
    (∀ (code : Nat) (body : String),
        handleRequestFailure (HttpOutcome.httpError code body none) =
          "HTTP " ++ toString code ++ ": " ++ body) ∧
    (∀ reason, handleRequestFailure (HttpOutcome.urlError reason) =
        "Connection error: " ++ reason) := by
  refine ⟨?_, ?_, fun code body => rfl, fun reason => rfl⟩
  · intro code body fields v hget
    simp only [handleRequestFailure, hget]
    rfl
  · intro code body fields hget
    simp only [handleRequestFailure, hget]

/-- Witness for C9's amended theorem: an error body with a string `error`
field yields that field as the message. -/
theorem request_failure_messages_witness :
    handleRequestFailure (HttpOutcome.httpError 500 "ignored"
      (some (PyJson.obj [("error", PyJson.str "boom")]))) = "boom" :=
  request_failure_messages.1 500 "ignored" [("error", PyJson.str "boom")] "boom" rfl

end Checkmate
